import Mathlib

/-!
Verification of the authentication and user-registration core of the
off-kilter repository against its design specification.

The repository ships the Python test scripts (src/test_auth.py,
src/create_test_token.py, src/backend/test_auth.py,
src/backend/test_duplicate_validation.py, src/backend/test_user_api.py);
the backend they exercise (TokenCodec, AuthMiddleware, ValidationPipeline,
IdentityUniquenessGuard, UserRegistrationService) is not part of the
source tree, so those components are modelled from the specification, as
noted on each definition. The token generators of the test scripts are
embedded directly from the Python source.
-/

namespace OffKilter

/-- Claim set carried by a session token, as built by the test scripts:
fields sub, email, username, exp, iat, with timestamps as whole seconds. -/
structure Claims where
  sub : String
  email : String
  username : String
  exp : Nat
  iat : Nat
  deriving DecidableEq, Repr

/-- Modelled from the spec: the canonical byte encoding of a string field
inside the claim encoding (TokenCodec serialization is not in src/). A
field is length-prefixed and its characters are emitted as code points. -/
def encodeStr (s : String) : List Nat :=
  s.length :: s.data.map Char.toNat

/-- Modelled from the spec: canonical byte encoding of a claim set
(TokenCodec.issue serialization is not in src/). Fields are emitted in
the order sub, email, username, exp, iat. -/
def encodeClaims (c : Claims) : List Nat :=
  encodeStr c.sub ++ encodeStr c.email ++ encodeStr c.username ++ [c.exp, c.iat]

/-- Modelled from the spec: decoder for one length-prefixed string field,
returning the field and the remaining bytes, or failing on truncation. -/
def decodeStr : List Nat → Option (String × List Nat)
  | [] => none
  | n :: rest =>
    if n ≤ rest.length then
      some (String.mk ((rest.take n).map Char.ofNat), rest.drop n)
    else none

/-- Modelled from the spec: decoder reversing `encodeClaims`; fails with
none when the bytes do not have the expected structural shape. -/
def decodeClaims (bs : List Nat) : Option Claims := do
  let (sub, r1) ← decodeStr bs
  let (email, r2) ← decodeStr r1
  let (username, r3) ← decodeStr r2
  match r3 with
  | [exp, iat] => some ⟨sub, email, username, exp, iat⟩
  | _ => none

/-- Process-wide signing secret, hardcoded identically in every test
script of the repository, as bytes. -/
def SECRET : List Nat :=
  "your-super-secret-jwt-key-change-this-in-production-please".data.map Char.toNat

/-- Modelled from the spec: the signature over the encoded claims using
the process-wide secret. The backend HMAC is not in src/; it is idealized
as an injective tag function, which is exactly the invariant the spec
states (any alteration of the encoded claims invalidates the signature). -/
def sign (enc : List Nat) : List Nat :=
  SECRET ++ enc

/-- Session token: the encoded claims together with the signature, the
two parts of the concatenated token string. -/
structure Token where
  enc : List Nat
  sig : List Nat
  deriving DecidableEq, Repr

/-- Failure kinds of TokenCodec.verify, per the spec error taxonomy. -/
inductive VerificationFailure where
  | MalformedToken
  | BadSignature
  | Expired
  deriving DecidableEq, Repr

/-- Modelled from the spec: TokenCodec.issue — serialize the claims,
sign the encoding with the process-wide secret, concatenate. -/
def issue (c : Claims) : Token :=
  ⟨encodeClaims c, sign (encodeClaims c)⟩

/-- Modelled from the spec: TokenCodec.verify — decode the claim bytes
(MalformedToken on failure), recompute the signature over the extracted
claim bytes and compare (BadSignature on mismatch), then check expiry
(Expired when now > expires_at). -/
def verify (now : Nat) (t : Token) : Except VerificationFailure Claims :=
  match decodeClaims t.enc with
  | none => .error .MalformedToken
  | some c =>
    if t.sig = sign t.enc then
      if c.exp < now then .error .Expired
      else .ok c
    else .error .BadSignature

theorem decodeStr_encodeStr (s : String) (rest : List Nat) :
    decodeStr (encodeStr s ++ rest) = some (s, rest) := by
  have hlen : s.length = (s.data.map Char.toNat).length := by
    rw [List.length_map]
    rfl
  simp only [encodeStr, List.cons_append, decodeStr, List.append_assoc]
  rw [if_pos]
  · rw [hlen, List.take_left, List.drop_left]
    simp only [List.map_map, Function.comp_def, Char.ofNat_toNat, List.map_id']
  · rw [hlen, List.length_append]
    exact Nat.le_add_right _ _

theorem decodeClaims_encodeClaims (c : Claims) :
    decodeClaims (encodeClaims c) = some c := by
  simp only [decodeClaims, encodeClaims, List.append_assoc]
  rw [decodeStr_encodeStr]
  simp only [Option.bind_eq_bind, Option.some_bind]
  rw [decodeStr_encodeStr]
  simp only [Option.some_bind]
  rw [decodeStr_encodeStr]
  rfl

theorem sign_injective {a b : List Nat} (h : sign a = sign b) : a = b :=
  List.append_cancel_left h

/-- Registration submission: the fields of the registration body that the
validation pipeline and the uniqueness guard inspect (the profile block is
passed through untouched and is omitted here). -/
structure Submission where
  email : String
  username : String
  password : String
  deriving DecidableEq, Repr

/-- Failure kinds of the registration path, per the spec error taxonomy:
one per validation stage plus the two uniqueness failures. -/
inductive RegError where
  | InvalidEmailFormat
  | InvalidUsernameLength
  | EmailAlreadyRegistered
  | UsernameAlreadyTaken
  deriving DecidableEq, Repr

/-- Messages surfaced to the client for each registration failure kind,
as asserted verbatim by src/backend/test_duplicate_validation.py. -/
def errorMessage : RegError → String
  | .InvalidEmailFormat => "Invalid email format"
  | .InvalidUsernameLength => "Username must be between 3 and 50 characters"
  | .EmailAlreadyRegistered => "Email already registered"
  | .UsernameAlreadyTaken => "Username already taken"

/-- Modelled from the spec: email syntactic validity (the backend check is
not in src/). A well-formed address has exactly one at-sign, a nonempty
local part, and a nonempty domain containing a dot. -/
def isValidEmail (s : String) : Bool :=
  s.data.count '@' == 1 &&
    !(s.data.takeWhile (· != '@')).isEmpty &&
    !((s.data.dropWhile (· != '@')).tail).isEmpty &&
    ((s.data.dropWhile (· != '@')).tail).contains '.'

/-- One validation stage: none on acceptance, or the stage failure kind. -/
abbrev Stage := Submission → Option RegError

/-- Modelled from the spec: pipeline stage 1, email syntactic validity. -/
def emailStage : Stage := fun s =>
  if isValidEmail s.email then none else some .InvalidEmailFormat

/-- Modelled from the spec: pipeline stage 2, username length between 3
and 50 characters inclusive. -/
def usernameStage : Stage := fun s =>
  if 3 ≤ s.username.length ∧ s.username.length ≤ 50 then none
  else some .InvalidUsernameLength

/-- Modelled from the spec: run an ordered list of fast-fail stages,
short-circuiting on the first failure. -/
def runPipeline : List Stage → Submission → Option RegError
  | [], _ => none
  | st :: rest, s =>
    match st s with
    | some e => some e
    | none => runPipeline rest s

/-- Modelled from the spec: the fixed stage order of ValidationPipeline,
email format before username length. -/
def pipelineStages : List Stage := [emailStage, usernameStage]

/-- Modelled from the spec: ValidationPipeline applied to a submission. -/
def validate (s : Submission) : Option RegError :=
  runPipeline pipelineStages s

/-- Persisted user record, restricted to the identity fields the claims
inspect (profile, statistics and created_at are carried opaquely by the
real record and play no role here). -/
structure UserRecord where
  id : String
  email : String
  username : String
  credential_hash : String
  deriving DecidableEq, Repr

/-- Live user-record store, the only shared mutable resource. -/
structure Store where
  records : List UserRecord
  deriving DecidableEq, Repr

/-- Whether some live record already holds this email. -/
def emailTaken (st : Store) (e : String) : Bool :=
  st.records.any (fun r => r.email == e)

/-- Whether some live record already holds this username. -/
def usernameTaken (st : Store) (u : String) : Bool :=
  st.records.any (fun r => r.username == u)

/-- Modelled from the spec: credential transformation before storage
(mechanism out of scope for the spec, opaque here). -/
def hashPassword (p : String) : String :=
  "hashed:" ++ p

/-- Modelled from the spec: the record built for a fresh registration
(the generated id is derived deterministically here; its value is opaque). -/
def mkRecord (s : Submission) : UserRecord :=
  ⟨"uid:" ++ s.username, s.email, s.username, hashPassword s.password⟩

/-- Modelled from the spec: IdentityUniquenessGuard — atomically check
and reserve (email checked before username); on failure no reservation is
made and the store is returned unchanged, on success the reservation and
the record creation are observed together. -/
def checkAndReserve (st : Store) (r : UserRecord) : Option RegError × Store :=
  if emailTaken st r.email then (some .EmailAlreadyRegistered, st)
  else if usernameTaken st r.username then (some .UsernameAlreadyTaken, st)
  else (none, ⟨r :: st.records⟩)

/-- Modelled from the spec: UserRegistrationService.register — run the
validation pipeline, then the uniqueness guard, then create the record;
nothing is written until both earlier steps succeed. -/
def register (st : Store) (s : Submission) :
    Except RegError UserRecord × Store :=
  match validate s with
  | some e => (.error e, st)
  | none =>
    let r := mkRecord s
    match checkAndReserve st r with
    | (some e, st') => (.error e, st')
    | (none, st') => (.ok r, st')

/-- Modelled from the spec: a batch of concurrent registration attempts.
The guard is the sole serialization point and its check-and-reserve is
atomic, so every concurrent execution is observed as some linear order of
whole register calls; the list is that (arbitrary) order. -/
def registerAll (st : Store) : List Submission →
    List (Except RegError UserRecord) × Store
  | [] => ([], st)
  | s :: rest =>
    let p := register st s
    let q := registerAll p.2 rest
    (p.1 :: q.1, q.2)

/-- Verified identity attached to the request context by the middleware. -/
structure Identity where
  sub : String
  email : String
  username : String
  deriving DecidableEq, Repr

/-- Outcome of dispatching a request to a protected route. -/
inductive RouteResult where
  | unauthorized (reason : String)
  | handled (resp : String)
  deriving DecidableEq, Repr

/-- Reason string surfaced for each verification failure kind: the spec
masks which cryptographic check failed behind a generic invalid-token
message, and reports expiry distinctly. -/
def reasonOf : VerificationFailure → String
  | .MalformedToken => "invalid token"
  | .BadSignature => "invalid token"
  | .Expired => "expired token"

/-- Modelled from the spec: AuthMiddleware on a protected route — with no
bearer credential reject Unauthorized with reason missing token; otherwise
verify, and either reject with the failure reason or attach the verified
identity and invoke the downstream handler. -/
def dispatchProtected (now : Nat) (cred : Option Token)
    (handler : Identity → String) : RouteResult :=
  match cred with
  | none => .unauthorized "missing token"
  | some t =>
    match verify now t with
    | .error e => .unauthorized (reasonOf e)
    | .ok c => .handled (handler ⟨c.sub, c.email, c.username⟩)

/-- The create_test_token function of src/test_auth.py (and identically
src/backend/test_auth.py): claims with sub the user id, exp 24 hours
after iat, signed with the shared secret; returns the token and the id.
The current time enters as the whole-second timestamp now. -/
def create_test_token (now : Nat) (user_id email username : String) :
    Token × String :=
  (issue ⟨user_id, email, username, now + 24 * 3600, now⟩, user_id)

/-- The module-level token of src/create_test_token.py: fixed test email
and username, exp 24 hours after iat, for a generated user id. -/
def create_test_token_script (now : Nat) (user_id : String) :
    Token × String :=
  (issue ⟨user_id, "test@example.com", "testuser", now + 24 * 3600, now⟩,
    user_id)

/-- The create_test_jwt function of src/backend/test_user_api.py: claims
for a given identity with exp 1 hour after iat. -/
def create_test_jwt (now : Nat) (user_id email username : String) : Token :=
  issue ⟨user_id, email, username, now + 3600, now⟩

/-- Whether a registration outcome is the UsernameAlreadyTaken rejection. -/
def isUsernameTakenErr : Except RegError UserRecord → Bool
  | .error .UsernameAlreadyTaken => true
  | _ => false

/-- C1: for every valid claim set (expires_at after issued_at) whose
expires_at lies in the future, verifying the token produced by issuing
that claim set returns exactly the original claim set. -/
theorem token_roundtrip (now : Nat) (c : Claims)
    (hvalid : c.iat < c.exp) (hfut : now < c.exp) :
    verify now (issue c) = .ok c := by
  simp only [verify, issue, decodeClaims_encodeClaims]
  rw [if_pos trivial, if_neg (by omega)]

/-- Witness for token_roundtrip at a concrete fresh claim set. -/
theorem token_roundtrip_witness :
    verify 50 (issue ⟨"u1", "a@x.org", "alice", 100, 10⟩)
      = .ok ⟨"u1", "a@x.org", "alice", 100, 10⟩ :=
  token_roundtrip 50 ⟨"u1", "a@x.org", "alice", 100, 10⟩
    (by decide) (by decide)

/-- C2: for every valid token, altering any byte of the encoded claims
portion (keeping the signature) makes verify fail with MalformedToken or
BadSignature; no altered token verifies successfully at any time. -/
theorem tamper_detected (now : Nat) (c : Claims) (i b : Nat)
    (hi : i < (encodeClaims c).length)
    (hb : b ≠ (encodeClaims c).getD i 0) :
    verify now ⟨((issue c).enc).set i b, (issue c).sig⟩
        = .error .MalformedToken ∨
      verify now ⟨((issue c).enc).set i b, (issue c).sig⟩
        = .error .BadSignature := by
  have hne : (encodeClaims c).set i b ≠ encodeClaims c := by
    intro h
    apply hb
    have h2 : ((encodeClaims c).set i b).getD i 0 = (encodeClaims c).getD i 0 :=
      congrArg (fun l => l.getD i 0) h
    rw [List.getD_eq_getElem _ 0
          (show i < ((encodeClaims c).set i b).length by simpa using hi),
        List.getD_eq_getElem _ 0 hi] at h2
    simp only [List.getElem_set_self] at h2
    rw [List.getD_eq_getElem _ 0 hi]
    exact h2
  have hT : (⟨(issue c).enc.set i b, (issue c).sig⟩ : Token)
      = ⟨(encodeClaims c).set i b, sign (encodeClaims c)⟩ := rfl
  rw [hT]
  have hsig : ¬ (sign (encodeClaims c) = sign ((encodeClaims c).set i b)) :=
    fun h => hne (sign_injective h).symm
  cases hdec : decodeClaims ((encodeClaims c).set i b) with
  | none =>
    left
    simp [verify, hdec]
  | some c2 =>
    right
    simp only [verify, hdec]
    simp [hsig]

/-- Witness for tamper_detected: zeroing the first byte of a concrete
issued token is rejected. -/
theorem tamper_detected_witness :
    verify 0 ⟨((issue ⟨"u", "e", "n", 5, 3⟩).enc).set 0 0,
        (issue ⟨"u", "e", "n", 5, 3⟩).sig⟩ = .error .MalformedToken ∨
      verify 0 ⟨((issue ⟨"u", "e", "n", 5, 3⟩).enc).set 0 0,
        (issue ⟨"u", "e", "n", 5, 3⟩).sig⟩ = .error .BadSignature :=
  tamper_detected 0 ⟨"u", "e", "n", 5, 3⟩ 0 0 (by decide) (by decide)

/-- C7: verification of an issued token fails with Expired exactly when
the current time is greater than the expires_at claim; in particular a
token whose expires_at is in the past always fails with Expired. -/
theorem expiry_exact (now : Nat) (c : Claims) :
    verify now (issue c) = .error .Expired ↔ c.exp < now := by
  simp only [verify, issue, decodeClaims_encodeClaims]
  rw [if_pos trivial]
  by_cases h : c.exp < now
  · simp [h]
  · simp [h]

/-- C4: a submission violating both the email-format rule and the
username-length rule is reported as InvalidEmailFormat; moreover the
email stage short-circuits the pipeline whatever stages follow it, and in
general any stage that fails determines the pipeline result regardless of
the stages after it, so only the first violated stage is ever reported. -/
theorem validation_order (s : Submission)
    (hmail : isValidEmail s.email = false)
    (hlen : ¬ (3 ≤ s.username.length ∧ s.username.length ≤ 50)) :
    validate s = some .InvalidEmailFormat ∧
      (∀ rest : List Stage,
        runPipeline (emailStage :: rest) s = some .InvalidEmailFormat) ∧
      (∀ (stg : Stage) (rest : List Stage) (e : RegError),
        stg s = some e → runPipeline (stg :: rest) s = some e) := by
  have h1 : emailStage s = some .InvalidEmailFormat := by
    simp [emailStage, hmail]
  refine ⟨?_, ?_, ?_⟩
  · simp [validate, pipelineStages, runPipeline, h1]
  · intro rest
    simp [runPipeline, h1]
  · intro stg rest e h
    simp [runPipeline, h]

/-- Witness for validation_order at the submission of
test_duplicate_validation.py, which has a malformed email and a 2-char
username. -/
theorem validation_order_witness :
    validate ⟨"invalid-email-format", "ab", "securepassword"⟩
      = some .InvalidEmailFormat :=
  (validation_order ⟨"invalid-email-format", "ab", "securepassword"⟩
    (by decide) (by decide)).1

/-- C6: the username-length stage accepts exactly the usernames of length
3 to 50 inclusive, any failure of the stage is InvalidUsernameLength, and
that kind is surfaced as the message the test asserts. -/
theorem username_length_rule (s : Submission) :
    (usernameStage s = none ↔
      3 ≤ s.username.length ∧ s.username.length ≤ 50) ∧
    (usernameStage s ≠ none →
      usernameStage s = some .InvalidUsernameLength) ∧
    errorMessage .InvalidUsernameLength
      = "Username must be between 3 and 50 characters" := by
  refine ⟨?_, ?_, rfl⟩ <;> by_cases h : 3 ≤ s.username.length ∧ s.username.length ≤ 50
  · simp [usernameStage, h]
  · simp [usernameStage, h]
  · simp [usernameStage, h]
  · simp [usernameStage, h]

/-- Witness for username_length_rule: the 2-character username of the
test is rejected with InvalidUsernameLength. -/
theorem username_length_rule_witness :
    usernameStage ⟨"valid@example.com", "ab", "securepassword"⟩
      = some .InvalidUsernameLength :=
  (username_length_rule ⟨"valid@example.com", "ab", "securepassword"⟩).2.1
    (by decide)

/-- C5: the uniqueness guard reports EmailAlreadyRegistered whenever the
email is taken (email checked before username), reports
UsernameAlreadyTaken when only the username is taken, and in both failure
cases returns the store unchanged, so no reservation is made. -/
theorem uniqueness_first_failure (st : Store) (r : UserRecord) :
    (emailTaken st r.email = true →
      checkAndReserve st r = (some .EmailAlreadyRegistered, st)) ∧
    (emailTaken st r.email = false → usernameTaken st r.username = true →
      checkAndReserve st r = (some .UsernameAlreadyTaken, st)) := by
  constructor
  · intro h
    simp [checkAndReserve, h]
  · intro h1 h2
    simp [checkAndReserve, h1, h2]

/-- Witness for uniqueness_first_failure on a one-record store: a taken
email yields EmailAlreadyRegistered, a taken username (with fresh email)
yields UsernameAlreadyTaken, the store unchanged both times. -/
theorem uniqueness_first_failure_witness :
    checkAndReserve ⟨[⟨"id1", "a@x.org", "alice", "h"⟩]⟩
        ⟨"id2", "a@x.org", "bob", "h"⟩
      = (some .EmailAlreadyRegistered, ⟨[⟨"id1", "a@x.org", "alice", "h"⟩]⟩) ∧
    checkAndReserve ⟨[⟨"id1", "a@x.org", "alice", "h"⟩]⟩
        ⟨"id2", "b@x.org", "alice", "h"⟩
      = (some .UsernameAlreadyTaken, ⟨[⟨"id1", "a@x.org", "alice", "h"⟩]⟩) :=
  ⟨(uniqueness_first_failure ⟨[⟨"id1", "a@x.org", "alice", "h"⟩]⟩
      ⟨"id2", "a@x.org", "bob", "h"⟩).1 (by decide),
   (uniqueness_first_failure ⟨[⟨"id1", "a@x.org", "alice", "h"⟩]⟩
      ⟨"id2", "b@x.org", "alice", "h"⟩).2 (by decide) (by decide)⟩

/-- C8: a registration that fails, whether at the validation pipeline or
at the uniqueness check, leaves the user-record store exactly as it was:
no record is created and no reservation remains. -/
theorem failed_registration_unchanged (st : Store) (s : Submission)
    (e : RegError) (h : (register st s).1 = .error e) :
    (register st s).2 = st := by
  unfold register at h ⊢
  cases hv : validate s with
  | some e2 => simp [hv]
  | none =>
    simp only [hv] at h ⊢
    by_cases h1 : emailTaken st (mkRecord s).email
    · simp [checkAndReserve, h1]
    · by_cases h2 : usernameTaken st (mkRecord s).username
      · simp [checkAndReserve, h1, h2]
      · simp [checkAndReserve, h1, h2] at h

/-- Witness for failed_registration_unchanged: a registration rejected
for email format leaves the empty store empty. -/
theorem failed_registration_unchanged_witness :
    (register ⟨[]⟩ ⟨"invalid-email-format", "validuser", "pw"⟩).2 = ⟨[]⟩ :=
  failed_registration_unchanged ⟨[]⟩
    ⟨"invalid-email-format", "validuser", "pw"⟩ .InvalidEmailFormat rfl

/-- C9: on a protected route no downstream handler ever runs without a
verified identity: with no bearer credential every handler sees the
request rejected Unauthorized with reason missing token, and with a
credential that fails verification every handler sees it rejected
Unauthorized with that failure reason — the outcome is the same for every
handler, so the handler is never invoked. -/
theorem protected_route_gate (now : Nat) (t : Token)
    (e : VerificationFailure) (h : verify now t = .error e) :
    (∀ handler : Identity → String,
      dispatchProtected now none handler = .unauthorized "missing token") ∧
    (∀ handler : Identity → String,
      dispatchProtected now (some t) handler
        = .unauthorized (reasonOf e)) := by
  constructor
  · intro handler
    rfl
  · intro handler
    simp [dispatchProtected, h]

/-- Witness for protected_route_gate: the empty token is malformed, and
both a missing and that invalid credential are rejected identically for a
concrete handler. -/
theorem protected_route_gate_witness :
    dispatchProtected 0 none (fun i => i.sub)
        = .unauthorized "missing token" ∧
      dispatchProtected 0 (some ⟨[], []⟩) (fun i => i.sub)
        = .unauthorized (reasonOf .MalformedToken) :=
  ⟨(protected_route_gate 0 ⟨[], []⟩ .MalformedToken rfl).1 (fun i => i.sub),
   (protected_route_gate 0 ⟨[], []⟩ .MalformedToken rfl).2 (fun i => i.sub)⟩

theorem registerAll_all_taken (st : Store) (u : String)
    (subs : List Submission)
    (hu : ∀ s ∈ subs, s.username = u)
    (hv : ∀ s ∈ subs, validate s = none)
    (he : ∀ s ∈ subs, emailTaken st s.email = false)
    (htaken : usernameTaken st u = true) :
    registerAll st subs
      = (subs.map (fun _ => .error .UsernameAlreadyTaken), st) := by
  induction subs with
  | nil => rfl
  | cons s rest ih =>
    have hv1 := hv s (by simp)
    have he1 := he s (by simp)
    have hu1 := hu s (by simp)
    have hreg : register st s = (.error .UsernameAlreadyTaken, st) := by
      have ht : usernameTaken st s.username = true := by
        rw [hu1]
        exact htaken
      simp [register, hv1, checkAndReserve, mkRecord, he1, ht]
    have ihr := ih (fun x hx => hu x (by simp [hx]))
      (fun x hx => hv x (by simp [hx])) (fun x hx => he x (by simp [hx]))
    simp [registerAll, hreg, ihr]

/-- C3: N concurrent registration attempts sharing a fresh username but
carrying distinct fresh valid emails, linearized in an arbitrary order
through the atomic check-and-reserve of the uniqueness guard (the sole
serialization point), yield exactly one success, and the remaining N-1
attempts all fail with UsernameAlreadyTaken. -/
theorem concurrent_same_username (st : Store) (u : String)
    (first : Submission) (rest : List Submission)
    (hu : ∀ s ∈ first :: rest, s.username = u)
    (hv : ∀ s ∈ first :: rest, validate s = none)
    (he : ∀ s ∈ first :: rest, emailTaken st s.email = false)
    (hnodup : ((first :: rest).map Submission.email).Nodup)
    (hufree : usernameTaken st u = false) :
    (registerAll st (first :: rest)).1.countP Except.isOk = 1 ∧
    (registerAll st (first :: rest)).1.countP isUsernameTakenErr
      = rest.length := by
  have hfu := hu first (by simp)
  have hreg : register st first
      = (.ok (mkRecord first), ⟨mkRecord first :: st.records⟩) := by
    have h1 := hv first (by simp)
    have h2 := he first (by simp)
    have h3 : usernameTaken st first.username = false := by
      rw [hfu]
      exact hufree
    simp [register, h1, checkAndReserve, mkRecord, h2, h3]
  have htaken : usernameTaken (⟨mkRecord first :: st.records⟩ : Store) u
      = true := by
    simp [usernameTaken, mkRecord]
    left
    exact hfu
  have hnotmem : first.email ∉ rest.map Submission.email :=
    (List.nodup_cons.mp (by simpa using hnodup)).1
  have hrest : registerAll (⟨mkRecord first :: st.records⟩ : Store) rest
      = (rest.map (fun _ => .error .UsernameAlreadyTaken),
          ⟨mkRecord first :: st.records⟩) := by
    apply registerAll_all_taken
    · intro s hs
      exact hu s (by simp [hs])
    · intro s hs
      exact hv s (by simp [hs])
    · intro s hs
      have hse := he s (by simp [hs])
      have hne : s.email ≠ first.email := fun hEq =>
        hnotmem (hEq ▸ List.mem_map_of_mem Submission.email hs)
      simp only [emailTaken, List.any_cons, Bool.or_eq_false_iff]
      refine ⟨?_, hse⟩
      simp [mkRecord]
      exact fun hcontra => hne hcontra.symm
    · exact htaken
  have hall : registerAll st (first :: rest)
      = (.ok (mkRecord first)
            :: rest.map (fun _ => .error .UsernameAlreadyTaken),
          ⟨mkRecord first :: st.records⟩) := by
    simp [registerAll, hreg, hrest]
  rw [hall]
  constructor
  · rw [List.countP_cons, List.map_const', List.countP_replicate]
    simp [Except.isOk, Except.toBool]
  · rw [List.countP_cons, List.map_const', List.countP_replicate]
    simp [isUsernameTakenErr]

/-- Witness for concurrent_same_username: two racing registrations of the
username carol with distinct emails against the empty store produce one
success and one UsernameAlreadyTaken. -/
theorem concurrent_same_username_witness :
    (registerAll ⟨[]⟩
        [⟨"c1@x.org", "carol", "pw1"⟩, ⟨"c2@x.org", "carol", "pw2"⟩]).1.countP
        Except.isOk = 1 ∧
    (registerAll ⟨[]⟩
        [⟨"c1@x.org", "carol", "pw1"⟩, ⟨"c2@x.org", "carol", "pw2"⟩]).1.countP
        isUsernameTakenErr = 1 :=
  concurrent_same_username ⟨[]⟩ "carol" ⟨"c1@x.org", "carol", "pw1"⟩
    [⟨"c2@x.org", "carol", "pw2"⟩] (by decide) (by decide) (by decide)
    (by decide) (by decide)

/-- C10: each test token generator returns a token whose embedded sub
claim is the user id it reports, and whose embedded exp claim exceeds the
embedded iat claim by exactly its advertised lifetime (24 hours for
src/test_auth.py and src/create_test_token.py, 1 hour for
src/backend/test_user_api.py), so every generated token satisfies the
invariant expires_at > issued_at. -/
theorem test_token_generators (now : Nat) (uid em un : String) :
    ((create_test_token now uid em un).2 = uid ∧
      decodeClaims (create_test_token now uid em un).1.enc
        = some ⟨uid, em, un, now + 24 * 3600, now⟩) ∧
    ((create_test_token_script now uid).2 = uid ∧
      decodeClaims (create_test_token_script now uid).1.enc
        = some ⟨uid, "test@example.com", "testuser", now + 24 * 3600, now⟩) ∧
    (decodeClaims (create_test_jwt now uid em un).enc
        = some ⟨uid, em, un, now + 3600, now⟩) ∧
    now < now + 3600 ∧ now < now + 24 * 3600 :=
  ⟨⟨rfl, decodeClaims_encodeClaims _⟩,
   ⟨rfl, decodeClaims_encodeClaims _⟩,
   decodeClaims_encodeClaims _,
   by omega, by omega⟩

end OffKilter
